import Mathlib

set_option linter.unusedVariables false

/-! Shallow embedding of the `DatabaseManager` class in `bd.py`.

The five SQLite tables created by `init_database` become lists of records,
together with the `sqlite_sequence` table that backs the AUTOINCREMENT
primary keys.  Each CRUD / reporting method is translated statement by
statement: SQL `WHERE` clauses become `List.filter` over decidable
predicates, joins become nested `flatMap`, `GROUP BY` becomes one group per
key row, `ORDER BY` becomes `List.insertionSort` with the corresponding
comparison, and `LIMIT`/`OFFSET` become `take`/`drop`.  DECIMAL values are
modelled as rationals, DATETIME values as natural-number timestamps
(SQLite compares the ISO text monotonically).  Note that `get_connection`
opens a fresh connection without re-issuing `PRAGMA foreign_keys = ON`
(that pragma is per connection and only set inside `init_database`), so
foreign keys are not enforced in the CRUD paths; CHECK constraints and
UNIQUE constraints are always enforced by the engine and are modelled. -/

/-- Status column of the orders table (the CHECK constraint enumerates
exactly these five values, default pending). -/
inductive OrderStatus
  | pending
  | confirmed
  | shipped
  | delivered
  | cancelled
  deriving DecidableEq

/-- Row of the categories table. -/
structure Category where
  category_id : Nat
  name : String
  description : String
  created_at : Nat
  deriving DecidableEq

/-- Row of the products table; category_id is a nullable foreign key. -/
structure Product where
  product_id : Nat
  name : String
  description : String
  price : ℚ
  stock_quantity : Int
  category_id : Option Nat
  created_at : Nat
  deriving DecidableEq

/-- Row of the customers table. -/
structure Customer where
  customer_id : Nat
  first_name : String
  last_name : String
  email : String
  phone : Option String
  registration_date : Nat
  deriving DecidableEq

/-- Row of the orders table. -/
structure Order where
  order_id : Nat
  customer_id : Nat
  order_date : Nat
  total_amount : ℚ
  status : OrderStatus
  deriving DecidableEq

/-- Row of the order_items table.  The generated column
`subtotal = quantity * unit_price` is derived, not stored. -/
structure OrderItem where
  order_item_id : Nat
  order_id : Nat
  product_id : Nat
  quantity : Nat
  unit_price : ℚ
  deriving DecidableEq

/-- The derived subtotal column of an order item. -/
def subtotal (oi : OrderItem) : ℚ := (oi.quantity : ℚ) * oi.unit_price

/-- Database state: the five tables plus the `sqlite_sequence` table
(pairs of table name and the largest AUTOINCREMENT id handed out) and a
clock supplying `CURRENT_TIMESTAMP` defaults. -/
structure DB where
  categories : List Category
  products : List Product
  customers : List Customer
  orders : List Order
  order_items : List OrderItem
  seq : List (String × Nat)
  clock : Nat
  deriving DecidableEq

/-- Primary keys are unique: the states reachable through the engine. -/
def DB.wf (db : DB) : Prop :=
  (db.categories.map (fun c => c.category_id)).Nodup ∧
    (db.products.map (fun p => p.product_id)).Nodup ∧
      (db.orders.map (fun o => o.order_id)).Nodup ∧
        (db.order_items.map (fun oi => oi.order_item_id)).Nodup

instance (db : DB) : Decidable db.wf := by
  unfold DB.wf
  infer_instance

def tblProducts : String := "products"

def tblCategories : String := "categories"

def tblCustomers : String := "customers"

def tblOrders : String := "orders"

def tblOrderItems : String := "order_items"

/-- Lookup in the `sqlite_sequence` table. -/
def seq_lookup (s : List (String × Nat)) (name : String) : Option Nat :=
  (s.find? (fun e => e.1 == name)).map (fun e => e.2)

/-- Record a new largest id for a table in `sqlite_sequence`. -/
def seq_set (s : List (String × Nat)) (name : String) (v : Nat) : List (String × Nat) :=
  if (s.find? (fun e => e.1 == name)).isSome then
    s.map (fun e => if e.1 == name then (e.1, v) else e)
  else s ++ [(name, v)]

/-- Delete a table's row from `sqlite_sequence`
(the second statement of `truncate_table`). -/
def seq_delete (s : List (String × Nat)) (name : String) : List (String × Nat) :=
  s.filter (fun e => !(e.1 == name))

/-- The id an AUTOINCREMENT insert assigns next: one past the value
recorded in `sqlite_sequence`, starting from 1 when no row is recorded. -/
def next_id (db : DB) (name : String) : Nat :=
  (seq_lookup db.seq name).getD 0 + 1

/-- Engine-level errors surfaced by sqlite3 that `bd.py` lets escape. -/
inductive SqlErr
  | integrityError
  deriving DecidableEq

/-- The `create_category` method: INSERT with a UNIQUE constraint on the
name; on `sqlite3.IntegrityError` the method logs and re-raises, so the
error escapes to the caller (modelled as `Except.error`). -/
def create_category (db : DB) (name description : String) : Except SqlErr (Nat × DB) :=
  if db.categories.any (fun c => c.name == name) then
    Except.error SqlErr.integrityError
  else
    let cid := next_id db tblCategories
    Except.ok (cid,
      { db with
        categories := db.categories ++ [⟨cid, name, description, db.clock⟩]
        seq := seq_set db.seq tblCategories cid
        clock := db.clock + 1 })

/-- A product dictionary handed to `create_product` / `batch_create_products`:
`none` fields model absent dictionary keys. -/
structure ProductData where
  name : Option String
  description : Option String
  price : Option ℚ
  stock_quantity : Option Int
  category_id : Option Nat
  deriving DecidableEq

/-- The three keys read with mandatory access (`product['name']` etc.);
a missing one raises KeyError in the batch path and fails the
`required_fields` check in `create_product`. -/
def required_ok (pd : ProductData) : Bool :=
  pd.name.isSome && pd.price.isSome && pd.category_id.isSome

/-- The CHECK constraints of the products table:
price >= 0 and stock_quantity >= 0. -/
def checks_ok (pd : ProductData) : Bool :=
  decide (0 ≤ pd.price.getD 0) && decide (0 ≤ pd.stock_quantity.getD 0)

/-- A product record is insertable iff its required keys are present and
the engine's CHECK constraints accept it. -/
def insert_ok (pd : ProductData) : Bool :=
  required_ok pd && checks_ok pd

/-- The row built by the INSERT INTO products statement
(defaults: description empty, stock 0, created_at current timestamp). -/
def product_of_data (db : DB) (pd : ProductData) : Product :=
  { product_id := next_id db tblProducts
    name := pd.name.getD ""
    description := pd.description.getD ""
    price := pd.price.getD 0
    stock_quantity := pd.stock_quantity.getD 0
    category_id := pd.category_id
    created_at := db.clock }

/-- State after a successful product INSERT. -/
def db_insert_product (db : DB) (pd : ProductData) : DB :=
  { db with
    products := db.products ++ [product_of_data db pd]
    seq := seq_set db.seq tblProducts (next_id db tblProducts)
    clock := db.clock + 1 }

/-- How one INSERT inside `batch_create_products` can fail: a missing
required key raises KeyError, a CHECK violation raises a sqlite3 error. -/
inductive InsErr
  | keyError
  | sqlError
  deriving DecidableEq

/-- One INSERT of the batch loop. -/
def insert_product_row (db : DB) (pd : ProductData) : Except InsErr DB :=
  if required_ok pd then
    if checks_ok pd then Except.ok (db_insert_product db pd)
    else Except.error InsErr.sqlError
  else Except.error InsErr.keyError

/-- The uncommitted loop of `batch_create_products`: inserts run one by
one inside a single transaction and stop at the first failure. -/
def run_inserts (db : DB) : List ProductData → Except InsErr DB
  | [] => Except.ok db
  | pd :: rest =>
    match insert_product_row db pd with
    | Except.ok db2 => run_inserts db2 rest
    | Except.error e => Except.error e

/-- Outcome of `batch_create_products`: `ok` is the Python `return True`;
`failedRolledBack` is the `except sqlite3.Error` branch (`conn.rollback()`
then `return False`); `raisedKeyError` is an uncaught KeyError, where the
connection context manager still rolls the transaction back. -/
inductive BatchResult
  | ok
  | failedRolledBack
  | raisedKeyError
  deriving DecidableEq

/-- The `batch_create_products` method.  On success the whole batch
commits; on any failure the transaction is rolled back, so the state
reverts to the initial `db`. -/
def batch_create_products (db : DB) (products : List ProductData) : BatchResult × DB :=
  match run_inserts db products with
  | Except.ok db2 => (BatchResult.ok, db2)
  | Except.error InsErr.sqlError => (BatchResult.failedRolledBack, db)
  | Except.error InsErr.keyError => (BatchResult.raisedKeyError, db)

/-- Failure kinds of `create_product`: the explicit ValueError raised when
a required field is missing, and re-raised sqlite errors. -/
inductive CreateErr
  | valueError
  | sqlError
  deriving DecidableEq

/-- The `create_product` method: required-field validation (ValueError),
then a single committed INSERT returning `cursor.lastrowid`. -/
def create_product (db : DB) (pd : ProductData) : Except CreateErr (Nat × DB) :=
  if required_ok pd then
    if checks_ok pd then Except.ok (next_id db tblProducts, db_insert_product db pd)
    else Except.error CreateErr.sqlError
  else Except.error CreateErr.valueError

/-- SQLite's ROUND(x, 2): round half away from zero to two decimals. -/
def round2 (x : ℚ) : ℚ :=
  if x < 0 then -((⌊-(x * 100) + 1 / 2⌋ : ℚ) / 100)
  else (⌊x * 100 + 1 / 2⌋ : ℚ) / 100

/-- A Python return value: `bulk_update_prices` returns the literal `True`
although it computes `cursor.rowcount` into a local. -/
inductive PyVal
  | bool (b : Bool)
  | int (n : Nat)
  deriving DecidableEq

/-- Whether the UPDATE of `bulk_update_prices` violates the products
table's CHECK(price >= 0) on some row of the category: the new rounded
price is negative, as happens whenever increase_percent < -100 hits a
positive price.  SQLite then raises IntegrityError on that row. -/
def bulk_check_fails (db : DB) (category_id : Nat) (increase_percent : ℚ) : Bool :=
  (db.products.filter (fun p => decide (p.category_id = some category_id))).any
    (fun p => decide (round2 (p.price * (1 + increase_percent / 100)) < 0))

/-- The `bulk_update_prices` method: one UPDATE statement
`SET price = ROUND(price * (1 + ? / 100), 2) WHERE category_id = ?`.
When an updated row violates CHECK(price >= 0) the engine raises, the
`except sqlite3.Error` branch rolls the transaction back and the method
returns False with the store unchanged; otherwise the update commits
and the method returns True (the rowcount is logged, not returned). -/
def bulk_update_prices (db : DB) (category_id : Nat) (increase_percent : ℚ) : PyVal × DB :=
  if bulk_check_fails db category_id increase_percent then (PyVal.bool false, db)
  else
    (PyVal.bool true,
     { db with
       products := db.products.map (fun p =>
         if p.category_id = some category_id then
           { p with price := round2 (p.price * (1 + increase_percent / 100)) }
         else p) })

/-- The number of rows the UPDATE of `bulk_update_prices` touches
(`cursor.rowcount`): every product of the category. -/
def bulk_affected_count (db : DB) (category_id : Nat) : Nat :=
  (db.products.filter (fun p => decide (p.category_id = some category_id))).length

/-- The `delete_product` method: first a COUNT(*) of referencing order
items; a positive count refuses with `return False` before any DELETE,
otherwise the row is deleted and the method returns True. -/
def delete_product (db : DB) (product_id : Nat) : Bool × DB :=
  let order_count := (db.order_items.filter (fun oi => decide (oi.product_id = product_id))).length
  if 0 < order_count then (false, db)
  else
    (true, { db with products := db.products.filter (fun p => decide (¬ p.product_id = product_id)) })

/-- The whitelist guarding `truncate_table`, in source order. -/
def allowed_tables : List String :=
  [tblProducts, tblCategories, tblCustomers, tblOrders, tblOrderItems]

/-- DELETE FROM the named table. -/
def db_clear_table (db : DB) (table_name : String) : DB :=
  if table_name == tblProducts then { db with products := [] }
  else if table_name == tblCategories then { db with categories := [] }
  else if table_name == tblCustomers then { db with customers := [] }
  else if table_name == tblOrders then { db with orders := [] }
  else if table_name == tblOrderItems then { db with order_items := [] }
  else db

/-- The `truncate_table` method: names outside the whitelist are rejected
before any statement runs; otherwise the table is emptied and its
`sqlite_sequence` row deleted in the same transaction. -/
def truncate_table (db : DB) (table_name : String) : Bool × DB :=
  if table_name ∈ allowed_tables then
    (true, { db_clear_table db table_name with seq := seq_delete db.seq table_name })
  else (false, db)

/-- Row count of the named table (used to state that truncation empties
exactly the requested table). -/
def table_count (db : DB) (table_name : String) : Nat :=
  if table_name == tblProducts then db.products.length
  else if table_name == tblCategories then db.categories.length
  else if table_name == tblCustomers then db.customers.length
  else if table_name == tblOrders then db.orders.length
  else if table_name == tblOrderItems then db.order_items.length
  else 0

/-- ASCII lowering, the case folding SQLite's default LIKE applies. -/
def lower_char (c : Char) : Char :=
  if 'A' ≤ c ∧ c ≤ 'Z' then Char.ofNat (c.toNat + 32) else c

/-- SQLite LIKE on character lists: `%` matches any run, `_` one
character, and everything else matches itself case-insensitively. -/
def like_chars : List Char → List Char → Bool
  | [], [] => true
  | [], _ :: _ => false
  | p :: ps, [] => if p = '%' then like_chars ps [] else false
  | p :: ps, c :: ts =>
    if p = '%' then like_chars ps (c :: ts) || like_chars (p :: ps) ts
    else if p = '_' then like_chars ps ts
    else (lower_char p == lower_char c) && like_chars ps ts
  termination_by p t => (t.length, p.length)

/-- `text LIKE pattern` on strings. -/
def like_match (pattern text : String) : Bool :=
  like_chars pattern.toList text.toList

/-- The pattern `get_products` builds for a search filter: the raw value
is pasted between two `%` wildcards without any escaping. -/
def wrap_pattern (s : String) : String :=
  "%" ++ s ++ "%"

/-- The recognized keys of the filters dictionary of `get_products`;
`none` models an absent key. -/
structure Filters where
  category_id : Option Nat := none
  min_price : Option ℚ := none
  max_price : Option ℚ := none
  search : Option String := none
  deriving DecidableEq

/-- The WHERE clause assembled by `get_products`: present filters are
ANDed; a search value matches name or description through LIKE. -/
def matches_filters (fs : Option Filters) (p : Product) : Bool :=
  match fs with
  | none => true
  | some f =>
    (match f.category_id with
     | some cid => decide (p.category_id = some cid)
     | none => true) &&
    (match f.min_price with
     | some m => decide (m ≤ p.price)
     | none => true) &&
    (match f.max_price with
     | some m => decide (p.price ≤ m)
     | none => true) &&
    (match f.search with
     | some s => like_match (wrap_pattern s) p.name || like_match (wrap_pattern s) p.description
     | none => true)

/-- Output row of `get_products`: `p.*` plus the LEFT-JOINed category
name (null when the product has no category or the id dangles). -/
structure ProductRow where
  product : Product
  category_name : Option String
  deriving DecidableEq

/-- ORDER BY p.created_at DESC. -/
def created_desc (a b : ProductRow) : Prop :=
  b.product.created_at ≤ a.product.created_at

instance : DecidableRel created_desc :=
  fun a b => inferInstanceAs (Decidable (b.product.created_at ≤ a.product.created_at))

/-- The `get_products` method: LEFT JOIN to categories, dynamic filters,
ORDER BY created_at DESC, LIMIT per_page OFFSET (page-1)*per_page. -/
def get_products (db : DB) (filters : Option Filters) (page per_page : Nat) : List ProductRow :=
  let rows := (db.products.filter (matches_filters filters)).map (fun p =>
    { product := p
      category_name :=
        (db.categories.find? (fun c => decide (some c.category_id = p.category_id))).map
          (fun c => c.name) })
  ((List.insertionSort created_desc rows).drop ((page - 1) * per_page)).take per_page

/-- The value `get_products` returns from its `except sqlite3.Error`
branch: the same empty list an empty successful read produces. -/
def get_products_error_return : List ProductRow := []

/-- The optional inclusive date-range filter of the sales report. -/
def order_in_range (o : Order) (sd ed : Option Nat) : Bool :=
  (match sd with
   | some d => decide (d ≤ o.order_date)
   | none => true) &&
  (match ed with
   | some d => decide (o.order_date ≤ d)
   | none => true)

/-- The WHERE clause of the sales report applied to a joined order:
status not cancelled, order date within the optional range. -/
def sales_order_ok (o : Order) (sd ed : Option Nat) : Bool :=
  decide (¬ o.status = OrderStatus.cancelled) && order_in_range o sd ed

/-- One order item's contribution to the sales-report join for a fixed
category row: the inner joins to products (restricted to that category)
and to qualifying orders, keeping one copy of the item per join match. -/
def sales_item_join (db : DB) (sd ed : Option Nat) (c : Category) (oi : OrderItem) : List OrderItem :=
  (db.products.filter (fun p =>
      decide (p.product_id = oi.product_id) && decide (p.category_id = some c.category_id))).flatMap
    (fun _ =>
      (db.orders.filter (fun o =>
          decide (o.order_id = oi.order_id) && sales_order_ok o sd ed)).map (fun _ => oi))

/-- All joined rows of the sales report falling into category `c`. -/
def sales_items_for (db : DB) (sd ed : Option Nat) (c : Category) : List OrderItem :=
  db.order_items.flatMap (sales_item_join db sd ed c)

/-- Output row of the sales report. -/
structure SalesRow where
  category_name : String
  items_sold : Nat
  total_quantity : Nat
  total_revenue : ℚ
  avg_price : ℚ
  max_price : ℚ
  min_price : ℚ
  deriving DecidableEq

/-- MAX over a group (groups are never empty in the report). -/
def agg_max : List ℚ → ℚ
  | [] => 0
  | x :: xs => xs.foldl max x

/-- MIN over a group. -/
def agg_min : List ℚ → ℚ
  | [] => 0
  | x :: xs => xs.foldl min x

/-- The aggregate SELECT of the sales report for one category group. -/
def sales_row (c : Category) (items : List OrderItem) : SalesRow :=
  { category_name := c.name
    items_sold := items.length
    total_quantity := (items.map (fun oi => oi.quantity)).sum
    total_revenue := (items.map subtotal).sum
    avg_price := (items.map (fun oi => oi.unit_price)).sum / (items.length : ℚ)
    max_price := agg_max (items.map (fun oi => oi.unit_price))
    min_price := agg_min (items.map (fun oi => oi.unit_price)) }

/-- ORDER BY total_revenue DESC. -/
def revenue_desc (a b : SalesRow) : Prop :=
  b.total_revenue ≤ a.total_revenue

instance : DecidableRel revenue_desc :=
  fun a b => inferInstanceAs (Decidable (b.total_revenue ≤ a.total_revenue))

instance : IsTotal SalesRow revenue_desc :=
  ⟨fun a b => le_total b.total_revenue a.total_revenue⟩

instance : IsTrans SalesRow revenue_desc :=
  ⟨fun a b c h1 h2 => le_trans h2 h1⟩

/-- The `get_sales_report` method: inner joins from order_items through
products and categories to orders, GROUP BY category, ORDER BY revenue
descending.  A category only yields a row when the join produces at
least one row for it. -/
def get_sales_report (db : DB) (sd ed : Option Nat) : List SalesRow :=
  List.insertionSort revenue_desc
    ((db.categories.filter (fun c => !(sales_items_for db sd ed c).isEmpty)).map
      (fun c => sales_row c (sales_items_for db sd ed c)))

/-- Output row of `get_customer_orders`. -/
structure CustRow where
  order_id : Nat
  order_date : Nat
  status : OrderStatus
  total_amount : ℚ
  item_count : Nat
  product_names : Option String
  deriving DecidableEq

def comma_sep : String := ", "

/-- One grouped row of `get_customer_orders`: the correlated COUNT(*) of
the order's items and the GROUP_CONCAT of the LEFT-JOINed product names
(null when the order has no items). -/
def cust_row (db : DB) (o : Order) : CustRow :=
  let items := db.order_items.filter (fun oi => decide (oi.order_id = o.order_id))
  let names := items.filterMap (fun oi =>
    (db.products.find? (fun p => decide (p.product_id = oi.product_id))).map (fun p => p.name))
  { order_id := o.order_id
    order_date := o.order_date
    status := o.status
    total_amount := o.total_amount
    item_count := items.length
    product_names := if names.isEmpty then none else some (String.intercalate comma_sep names) }

/-- ORDER BY o.order_date DESC. -/
def date_desc (a b : CustRow) : Prop :=
  b.order_date ≤ a.order_date

instance : DecidableRel date_desc :=
  fun a b => inferInstanceAs (Decidable (b.order_date ≤ a.order_date))

/-- The `get_customer_orders` method: every order of the customer yields
one group (the LEFT JOINs keep orders without items). -/
def get_customer_orders (db : DB) (customer_id : Nat) : List CustRow :=
  List.insertionSort date_desc
    ((db.orders.filter (fun o => decide (o.customer_id = customer_id))).map (cust_row db))

/-- The joined rows of the `product_sales` CTE for one product: LEFT JOIN
to order_items keeps unsold products; the further LEFT JOIN to orders
carries the `status != 'cancelled'` condition in its ON clause, so an
item whose order is cancelled still contributes a row (with the order
columns null) — the condition filters nothing out. -/
def pop_group (db : DB) (p : Product) : List OrderItem :=
  (db.order_items.filter (fun oi => decide (oi.product_id = p.product_id))).flatMap
    (fun oi =>
      let os := db.orders.filter (fun o =>
        decide (o.order_id = oi.order_id) && decide (¬ o.status = OrderStatus.cancelled))
      if os.isEmpty then [oi] else os.map (fun _ => oi))

/-- Output row of `get_popular_products`; the aggregates are null for a
product with no order items at all. -/
structure PopRow where
  product_id : Nat
  name : String
  price : ℚ
  category_name : Option String
  total_sold : Option Nat
  total_revenue : Option ℚ
  deriving DecidableEq

/-- One row of the `product_sales` CTE (GROUP BY p.product_id). -/
def pop_row (db : DB) (p : Product) : PopRow :=
  let items := pop_group db p
  { product_id := p.product_id
    name := p.name
    price := p.price
    category_name :=
      (db.categories.find? (fun c => decide (some c.category_id = p.category_id))).map
        (fun c => c.name)
    total_sold := if items.isEmpty then none else some ((items.map (fun oi => oi.quantity)).sum)
    total_revenue := if items.isEmpty then none else some ((items.map subtotal).sum) }

/-- SQL DESC ordering on a nullable numeric: null sorts below every
value, so it comes last in descending order. -/
def opt_le_nat : Option Nat → Option Nat → Bool
  | none, _ => true
  | some _, none => false
  | some x, some y => decide (x ≤ y)

/-- Same, for nullable rationals. -/
def opt_le_rat : Option ℚ → Option ℚ → Bool
  | none, _ => true
  | some _, none => false
  | some x, some y => decide (x ≤ y)

/-- ORDER BY total_sold DESC, total_revenue DESC. -/
def pop_order (a b : PopRow) : Prop :=
  opt_le_nat b.total_sold a.total_sold = true ∧
    (b.total_sold = a.total_sold → opt_le_rat b.total_revenue a.total_revenue = true)

instance : DecidableRel pop_order := fun a b => by
  unfold pop_order
  infer_instance

/-- The ordered `product_sales` CTE of `get_popular_products`. -/
def product_sales (db : DB) : List PopRow :=
  List.insertionSort pop_order (db.products.map (pop_row db))

/-- The `get_popular_products` method: the ordered CTE limited to the
caller's top-N. -/
def get_popular_products (db : DB) (limit : Nat) : List PopRow :=
  (product_sales db).take limit

/-- Whether an order item belongs to a cancelled order (by primary-key
lookup of its order). -/
def item_order_cancelled (db : DB) (oi : OrderItem) : Bool :=
  match db.orders.find? (fun o => decide (o.order_id = oi.order_id)) with
  | some o => decide (o.status = OrderStatus.cancelled)
  | none => false

/-- The same database with every item of a cancelled order removed. -/
def drop_cancelled (db : DB) : DB :=
  { db with order_items := db.order_items.filter (fun oi => !item_order_cancelled db oi) }

/-- Specification-side predicate: the item's product (by primary key)
sits in the given category. -/
def item_in_category (db : DB) (catId : Nat) (oi : OrderItem) : Bool :=
  match db.products.find? (fun p => decide (p.product_id = oi.product_id)) with
  | some p => decide (p.category_id = some catId)
  | none => false

/-- Specification-side predicate: the item's order (by primary key)
exists, is not cancelled and lies in the optional date range. -/
def item_counted (db : DB) (sd ed : Option Nat) (oi : OrderItem) : Bool :=
  match db.orders.find? (fun o => decide (o.order_id = oi.order_id)) with
  | some o => sales_order_ok o sd ed
  | none => false

/-- Specification-side revenue of a category: the sum of
quantity * unit_price over exactly the counted items of the category. -/
def category_revenue (db : DB) (sd ed : Option Nat) (catId : Nat) : ℚ :=
  ((db.order_items.filter (fun oi =>
      item_in_category db catId oi && item_counted db sd ed oi)).map subtotal).sum

/-! Concrete database states used to evaluate the operations. -/

/-- The freshly initialised store: all tables empty. -/
def empty_db : DB :=
  { categories := [], products := [], customers := [], orders := [],
    order_items := [], seq := [], clock := 0 }

/-- A product that only a cancelled order ever bought. -/
def prod_c1 : Product :=
  { product_id := 1, name := "Widget", description := "", price := 5,
    stock_quantity := 0, category_id := none, created_at := 0 }

/-- State with one product, one cancelled order and one order item of
quantity 2 at unit price 5 for that product. -/
def db_c1 : DB :=
  { categories := []
    products := [prod_c1]
    customers := []
    orders := [{ order_id := 1, customer_id := 1, order_date := 0, total_amount := 0,
                 status := OrderStatus.cancelled }]
    order_items := [{ order_item_id := 1, order_id := 1, product_id := 1, quantity := 2,
                      unit_price := 5 }]
    seq := [(tblProducts, 1), (tblOrders, 1), (tblOrderItems, 1)]
    clock := 1 }

/-- A category nothing was ever sold from. -/
def cat_c2 : Category :=
  { category_id := 1, name := "Books", description := "", created_at := 0 }

/-- A product of that category. -/
def prod_c2 : Product :=
  { product_id := 1, name := "Tome", description := "", price := 5,
    stock_quantity := 0, category_id := some 1, created_at := 0 }

/-- State with one category and one product but no orders or items. -/
def db_c2 : DB :=
  { categories := [cat_c2], products := [prod_c2], customers := [], orders := [],
    order_items := [], seq := [(tblCategories, 1), (tblProducts, 1)], clock := 1 }

/-- A product priced 20.00 in category 1. -/
def prod_c3 : Product :=
  { product_id := 1, name := "Novel", description := "", price := 20,
    stock_quantity := 0, category_id := some 1, created_at := 0 }

/-- State holding just that product. -/
def db_c3 : DB :=
  { categories := [], products := [prod_c3], customers := [], orders := [],
    order_items := [], seq := [(tblProducts, 1)], clock := 1 }

/-- State with two products in category 1, so a bulk update touches two
rows. -/
def db_c4 : DB :=
  { categories := []
    products :=
      [{ product_id := 1, name := "Pen", description := "", price := 10,
         stock_quantity := 0, category_id := some 1, created_at := 0 },
       { product_id := 2, name := "Ink", description := "", price := 10,
         stock_quantity := 0, category_id := some 1, created_at := 1 }]
    customers := [], orders := [], order_items := []
    seq := [(tblProducts, 2)], clock := 2 }

/-- A valid batch record. -/
def pd_ok1 : ProductData :=
  { name := some "First", description := none, price := some 5,
    stock_quantity := none, category_id := some 1 }

/-- A batch record missing the required name key. -/
def pd_bad : ProductData :=
  { name := none, description := none, price := some 5,
    stock_quantity := none, category_id := some 1 }

/-- Another valid batch record, after the failing one. -/
def pd_ok2 : ProductData :=
  { name := some "Third", description := none, price := some 5,
    stock_quantity := none, category_id := some 1 }

/-- A product no order item references. -/
def prod_c6 : Product :=
  { product_id := 1, name := "Lonely", description := "", price := 5,
    stock_quantity := 0, category_id := none, created_at := 0 }

/-- State holding just that unreferenced product. -/
def db_c6 : DB :=
  { categories := [], products := [prod_c6], customers := [], orders := [],
    order_items := [], seq := [(tblProducts, 1)], clock := 1 }

/-- State already holding a category named A, so inserting another A
violates the UNIQUE constraint. -/
def db_c7 : DB :=
  { categories := [{ category_id := 1, name := "A", description := "", created_at := 0 }]
    products := [], customers := [], orders := [], order_items := []
    seq := [(tblCategories, 1)], clock := 1 }

/-- A well-formed state with two categories, two products, one pending
and one cancelled order, and three order items. -/
def db_c8w : DB :=
  { categories :=
      [{ category_id := 1, name := "Alpha", description := "", created_at := 0 },
       { category_id := 2, name := "Beta", description := "", created_at := 0 }]
    products :=
      [{ product_id := 1, name := "P1", description := "", price := 5,
         stock_quantity := 0, category_id := some 1, created_at := 0 },
       { product_id := 2, name := "P2", description := "", price := 3,
         stock_quantity := 0, category_id := some 2, created_at := 0 }]
    customers := []
    orders :=
      [{ order_id := 1, customer_id := 1, order_date := 0, total_amount := 0,
         status := OrderStatus.pending },
       { order_id := 2, customer_id := 1, order_date := 0, total_amount := 0,
         status := OrderStatus.cancelled }]
    order_items :=
      [{ order_item_id := 1, order_id := 1, product_id := 1, quantity := 2, unit_price := 5 },
       { order_item_id := 2, order_id := 1, product_id := 2, quantity := 1, unit_price := 3 },
       { order_item_id := 3, order_id := 2, product_id := 1, quantity := 4, unit_price := 5 }]
    seq := [(tblCategories, 2), (tblProducts, 2), (tblOrders, 2), (tblOrderItems, 3)]
    clock := 1 }

/-- State with rows in the products table and a recorded sequence value,
for exercising truncation. -/
def db_c9 : DB :=
  { categories := []
    products :=
      [{ product_id := 6, name := "Old", description := "", price := 5,
         stock_quantity := 0, category_id := none, created_at := 0 },
       { product_id := 7, name := "Older", description := "", price := 5,
         stock_quantity := 0, category_id := none, created_at := 0 }]
    customers := [], orders := [], order_items := []
    seq := [(tblProducts, 7)], clock := 1 }

/-- A valid record to insert after truncation. -/
def pd_c9 : ProductData :=
  { name := some "New", description := none, price := some 5,
    stock_quantity := none, category_id := some 1 }

/-- The search value of the implicit-claim example. -/
def str_ab : String := "a%b"

/-- A product whose name matches the unescaped pattern without containing
the literal search text. -/
def prod_axxb : Product :=
  { product_id := 1, name := "axxb", description := "", price := 5,
    stock_quantity := 0, category_id := none, created_at := 1 }

/-- A product the pattern does not match. -/
def prod_zzz : Product :=
  { product_id := 2, name := "zzz", description := "", price := 5,
    stock_quantity := 0, category_id := none, created_at := 0 }

/-- State holding the matching and the non-matching product. -/
def db_c10 : DB :=
  { categories := [], products := [prod_zzz, prod_axxb], customers := [], orders := [],
    order_items := [], seq := [(tblProducts, 2)], clock := 2 }

/-! Generic list lemmas used to relate the nested-loop joins to direct
filters over the item table. -/

/-- In a list with pairwise distinct keys, filtering for one key value
collapses to the primary-key lookup. -/
theorem filter_key_unique {α : Type} (key : α → Nat) (q : α → Bool) (l : List α) (k : Nat)
    (h : (l.map key).Nodup) :
    l.filter (fun x => decide (key x = k) && q x) =
      (match l.find? (fun x => decide (key x = k)) with
       | some x => if q x then [x] else []
       | none => []) := by
  induction l with
  | nil => rfl
  | cons a t ih =>
    rw [List.map_cons, List.nodup_cons] at h
    obtain ⟨hka, ht⟩ := h
    by_cases hak : key a = k
    · have htail : t.filter (fun x => decide (key x = k) && q x) = [] := by
        simp only [List.filter_eq_nil_iff]
        intro x hx
        have hxk : ¬ key x = k := by
          intro hxk
          exact hka (by rw [hak, ← hxk]; exact List.mem_map_of_mem key hx)
        simp [hxk]
      cases hqa : q a <;>
        simp [List.filter_cons, List.find?_cons, hak, hqa, htail]
    · simp only [List.filter_cons, List.find?_cons,
        show (decide (key a = k)) = false by simp [hak],
        Bool.false_and, Bool.false_eq_true, if_false]
      exact ih ht

/-- Binding each element to its own singleton when a predicate holds is
a filter. -/
theorem flatMap_ite {α : Type} (p : α → Bool) (l : List α) :
    (l.flatMap fun x => if p x then [x] else []) = l.filter p := by
  induction l with
  | nil => rfl
  | cons a t ih =>
    rw [List.flatMap_cons, List.filter_cons, ih]
    cases hp : p a <;> simp

/-- Elements the filter drops contribute nothing to the bind, so the
filter can be dropped. -/
theorem flatMap_filter_eq {α β : Type} (p : α → Bool) (f : α → List β) (l : List α)
    (h : ∀ x ∈ l, p x = false → f x = []) :
    (l.filter p).flatMap f = l.flatMap f := by
  induction l with
  | nil => rfl
  | cons a t ih =>
    have hrest := ih (fun x hx hpx => h x (List.mem_cons_of_mem a hx) hpx)
    cases hp : p a
    · rw [List.filter_cons, List.flatMap_cons, h a (List.mem_cons_self a t) hp]
      simp only [hp, Bool.false_eq_true, if_false, List.nil_append]
      exact hrest
    · rw [List.filter_cons]
      simp only [hp, if_true]
      rw [List.flatMap_cons, List.flatMap_cons, hrest]

/-- Deleting a table's sqlite_sequence row makes its lookup miss. -/
theorem seq_lookup_delete (s : List (String × Nat)) (name : String) :
    seq_lookup (seq_delete s name) name = none := by
  unfold seq_lookup
  have hnone : (seq_delete s name).find? (fun e => e.1 == name) = none := by
    rw [List.find?_eq_none]
    intro e he
    have hmem := List.mem_filter.mp he
    simpa using hmem.2
  rw [hnone]
  rfl

/-- Under unique primary keys, the join contribution of one order item to
a category group is the item itself exactly when its product lies in the
category and its order qualifies. -/
theorem sales_item_join_eq (db : DB) (sd ed : Option Nat) (c : Category) (oi : OrderItem)
    (hp : (db.products.map (fun p => p.product_id)).Nodup)
    (ho : (db.orders.map (fun o => o.order_id)).Nodup) :
    sales_item_join db sd ed c oi =
      if item_in_category db c.category_id oi && item_counted db sd ed oi then [oi] else [] := by
  unfold sales_item_join item_in_category item_counted
  rw [filter_key_unique (fun p => p.product_id)
    (fun p => decide (p.category_id = some c.category_id)) db.products oi.product_id hp]
  rw [filter_key_unique (fun o => o.order_id)
    (fun o => sales_order_ok o sd ed) db.orders oi.order_id ho]
  cases hfp : db.products.find? (fun p => decide (p.product_id = oi.product_id)) with
  | none => simp
  | some p =>
    cases hfo : db.orders.find? (fun o => decide (o.order_id = oi.order_id)) with
    | none =>
      cases hq : decide (p.category_id = some c.category_id) <;> simp [hq]
    | some o =>
      cases hq : decide (p.category_id = some c.category_id) <;>
        cases hs : sales_order_ok o sd ed <;> simp [hq, hs]

/-- Under unique primary keys, a category's joined rows are exactly the
counted order items of that category. -/
theorem sales_items_eq_filter (db : DB) (sd ed : Option Nat) (c : Category)
    (hp : (db.products.map (fun p => p.product_id)).Nodup)
    (ho : (db.orders.map (fun o => o.order_id)).Nodup) :
    sales_items_for db sd ed c =
      db.order_items.filter (fun oi =>
        item_in_category db c.category_id oi && item_counted db sd ed oi) := by
  unfold sales_items_for
  have hfun : sales_item_join db sd ed c = fun oi =>
      if item_in_category db c.category_id oi && item_counted db sd ed oi then [oi] else [] :=
    funext (fun oi => sales_item_join_eq db sd ed c oi hp ho)
  rw [hfun, flatMap_ite]

/-- Removing the items of cancelled orders leaves every category's joined
rows unchanged: cancelled items never reach a sales-report group. -/
theorem sales_items_drop_cancelled (db : DB) (sd ed : Option Nat) (c : Category)
    (ho : (db.orders.map (fun o => o.order_id)).Nodup) :
    sales_items_for (drop_cancelled db) sd ed c = sales_items_for db sd ed c := by
  unfold sales_items_for
  have hjoin : sales_item_join (drop_cancelled db) sd ed c = sales_item_join db sd ed c := rfl
  rw [hjoin, show (drop_cancelled db).order_items =
    db.order_items.filter (fun oi => !item_order_cancelled db oi) from rfl]
  apply flatMap_filter_eq
  intro oi hoi hfalse
  have hcanc : item_order_cancelled db oi = true := by
    cases hc : item_order_cancelled db oi
    · rw [hc] at hfalse
      simp at hfalse
    · rfl
  unfold item_order_cancelled at hcanc
  unfold sales_item_join
  rw [filter_key_unique (fun o => o.order_id)
    (fun o => sales_order_ok o sd ed) db.orders oi.order_id ho]
  cases hfo : db.orders.find? (fun o => decide (o.order_id = oi.order_id)) with
  | none =>
    rw [hfo] at hcanc
    simp at hcanc
  | some o =>
    rw [hfo] at hcanc
    simp only [decide_eq_true_eq] at hcanc
    have hok : sales_order_ok o sd ed = false := by
      unfold sales_order_ok
      simp [hcanc]
    simp [hok]

/-- The whole sales report is unchanged when the cancelled orders' items
are removed first. -/
theorem sales_report_drop_cancelled (db : DB) (sd ed : Option Nat)
    (ho : (db.orders.map (fun o => o.order_id)).Nodup) :
    get_sales_report (drop_cancelled db) sd ed = get_sales_report db sd ed := by
  unfold get_sales_report
  have hfun : sales_items_for (drop_cancelled db) sd ed = sales_items_for db sd ed :=
    funext (fun c => sales_items_drop_cancelled db sd ed c ho)
  rw [show (drop_cancelled db).categories = db.categories from rfl, hfun]

/-- A record that fails its insert produces an error from the single
INSERT, whatever the current state. -/
theorem insert_product_row_fails (db : DB) (pd : ProductData) (h : insert_ok pd = false) :
    ∃ e, insert_product_row db pd = Except.error e := by
  unfold insert_ok at h
  unfold insert_product_row
  cases hr : required_ok pd
  · exact ⟨InsErr.keyError, by simp [hr]⟩
  · have hc : checks_ok pd = false := by
      rw [hr] at h
      simpa using h
    exact ⟨InsErr.sqlError, by simp [hr, hc]⟩

/-- A record that passes its checks inserts successfully. -/
theorem insert_product_row_ok (db : DB) (pd : ProductData) (h : insert_ok pd = true) :
    insert_product_row db pd = Except.ok (db_insert_product db pd) := by
  unfold insert_ok at h
  have hr : required_ok pd = true := by
    cases hx : required_ok pd
    · rw [hx] at h
      simp at h
    · rfl
  have hc : checks_ok pd = true := by
    rw [hr] at h
    simpa using h
  unfold insert_product_row
  simp [hr, hc]

/-- If any record of the batch fails its insert, the transaction loop
ends in an error, from any starting state. -/
theorem run_inserts_fails (ps : List ProductData) :
    ∀ db : DB, (∃ pd ∈ ps, insert_ok pd = false) →
      ∃ e, run_inserts db ps = Except.error e := by
  induction ps with
  | nil =>
    intro db h
    obtain ⟨pd, hmem, _⟩ := h
    exact absurd hmem (List.not_mem_nil pd)
  | cons a t ih =>
    intro db h
    obtain ⟨pd, hmem, hbad⟩ := h
    cases ha : insert_ok a with
    | false =>
      obtain ⟨e, he⟩ := insert_product_row_fails db a ha
      exact ⟨e, by simp only [run_inserts, he]⟩
    | true =>
      have htail : ∃ pd ∈ t, insert_ok pd = false := by
        rcases List.mem_cons.mp hmem with h1 | h2
        · rw [h1, ha] at hbad
          simp at hbad
        · exact ⟨pd, h2, hbad⟩
      obtain ⟨e, he⟩ := ih (db_insert_product db a) htail
      refine ⟨e, ?_⟩
      simp only [run_inserts, insert_product_row_ok db a ha]
      exact he

/-- A pattern consisting of a single percent matches every text. -/
theorem like_chars_percent_nil (t : List Char) : like_chars ['%'] t = true := by
  induction t with
  | nil => simp [like_chars]
  | cons c ts ih => simp [like_chars, ih]

/-- A leading percent wildcard absorbs any prefix of the text. -/
theorem like_chars_percent_skip (ps t1 t2 : List Char) (h : like_chars ps t2 = true) :
    like_chars ('%' :: ps) (t1 ++ t2) = true := by
  induction t1 with
  | nil =>
    cases t2 with
    | nil => simpa [like_chars] using h
    | cons c ts => simp [like_chars, h]
  | cons c t1' ih => simp [like_chars, ih]

/-- ROUND applied once to 20.00 with a 10 percent increase. -/
theorem round2_twenty : round2 (20 * (1 + 10 / 100)) = 22 := by
  rw [round2, if_neg (by norm_num)]
  norm_num

/-- ROUND applied to the resulting 22.00 with another 10 percent. -/
theorem round2_twentytwo : round2 (22 * (1 + 10 / 100)) = 24.2 := by
  rw [round2, if_neg (by norm_num)]
  norm_num

/-- When no row of the category violates the price CHECK, the UPDATE of
bulk_update_prices commits: True is returned and every category row's
price is rewritten by the rounded formula. -/
theorem bulk_update_ok (db : DB) (cat : Nat) (pct : ℚ)
    (h : bulk_check_fails db cat pct = false) :
    bulk_update_prices db cat pct =
      (PyVal.bool true,
       { db with
         products := db.products.map (fun p =>
           if p.category_id = some cat then
             { p with price := round2 (p.price * (1 + pct / 100)) }
           else p) }) := by
  unfold bulk_update_prices
  rw [h, if_neg Bool.false_ne_true]

/-- C3: whenever the engine's CHECK(price >= 0) accepts the update,
bulk_update_prices sets every product price of the category to its old
price times (1 + p/100) rounded to two decimals, and composes
multiplicatively rather than idempotently: a 20.00 product becomes 22.00
after one 10 percent application and 24.20 after a second. -/
theorem C3_bulk_update_compounds :
    (∀ (db : DB) (cat : Nat) (pct : ℚ), bulk_check_fails db cat pct = false →
       (bulk_update_prices db cat pct).2.products = db.products.map (fun p =>
         if p.category_id = some cat then
           { p with price := round2 (p.price * (1 + pct / 100)) }
         else p)) ∧
    (bulk_update_prices db_c3 1 10).2.products = [{ prod_c3 with price := 22 }] ∧
    (bulk_update_prices (bulk_update_prices db_c3 1 10).2 1 10).2.products =
      [{ prod_c3 with price := 24.2 }] := by
  have hck1 : bulk_check_fails db_c3 1 10 = false := by
    simp [bulk_check_fails, db_c3, prod_c3, round2_twenty, decide_eq_false_iff_not]
  have hp1 : (bulk_update_prices db_c3 1 10).2.products = [{ prod_c3 with price := 22 }] := by
    rw [bulk_update_ok db_c3 1 10 hck1]
    simp [db_c3, prod_c3, round2_twenty]
  have hck2 : bulk_check_fails (bulk_update_prices db_c3 1 10).2 1 10 = false := by
    simp [bulk_check_fails, hp1, prod_c3, round2_twentytwo, decide_eq_false_iff_not]
    norm_num
  refine ⟨?_, hp1, ?_⟩
  · intro db cat pct h
    rw [bulk_update_ok db cat pct h]
  · rw [bulk_update_ok _ 1 10 hck2, hp1]
    simp [prod_c3, round2_twentytwo]

/-- C3 witness: the concrete 10 percent update on db_c3 passes the CHECK
and rewrites the one price by the formula. -/
theorem C3_bulk_witness :
    bulk_check_fails db_c3 1 10 = false ∧
    (bulk_update_prices db_c3 1 10).2.products =
      db_c3.products.map (fun p =>
        if p.category_id = some 1 then
          { p with price := round2 (p.price * (1 + (10 : ℚ) / 100)) }
        else p) := by
  have hck1 : bulk_check_fails db_c3 1 10 = false := by
    simp [bulk_check_fails, db_c3, prod_c3, round2_twenty, decide_eq_false_iff_not]
  exact ⟨hck1, C3_bulk_update_compounds.1 db_c3 1 10 hck1⟩

/-- C4 counterexample: on a category of two products the method returns
the Python boolean True, not the affected-row count 2 the claim says it
returns. -/
theorem C4_counterexample :
    (bulk_update_prices db_c4 1 10).1 ≠ PyVal.int (bulk_affected_count db_c4 1) ∧
    bulk_affected_count db_c4 1 = 2 := by
  constructor
  · intro h
    unfold bulk_update_prices at h
    cases hck : bulk_check_fails db_c4 1 10 <;> rw [hck] at h <;> simp at h
  · rfl

/-- ROUND applied to the 10.00 prices of db_c4 with a 10 percent
increase. -/
theorem round2_ten : round2 (10 * (1 + 10 / 100)) = 11 := by
  rw [round2, if_neg (by norm_num)]
  norm_num

/-- C4 amended: bulk_update_prices returns a mere boolean flag, never the
count: True when the engine accepts the update, False (with the store
rolled back unchanged) when a row violates the price CHECK; the rowcount
is computed into a local and logged but not returned. -/
theorem C4_returns_bool_flag (db : DB) (cat : Nat) (pct : ℚ) :
    (bulk_check_fails db cat pct = false →
       (bulk_update_prices db cat pct).1 = PyVal.bool true) ∧
    (bulk_check_fails db cat pct = true →
       bulk_update_prices db cat pct = (PyVal.bool false, db)) := by
  constructor
  · intro h
    unfold bulk_update_prices
    rw [h, if_neg Bool.false_ne_true]
  · intro h
    unfold bulk_update_prices
    rw [h, if_pos rfl]

/-- C4 witness: the 10 percent update on db_c4 passes the CHECK and the
method returns the boolean True. -/
theorem C4_returns_bool_witness :
    bulk_check_fails db_c4 1 10 = false ∧
    (bulk_update_prices db_c4 1 10).1 = PyVal.bool true := by
  have h : bulk_check_fails db_c4 1 10 = false := by
    simp [bulk_check_fails, db_c4, round2_ten, decide_eq_false_iff_not]
  exact ⟨h, (C4_returns_bool_flag db_c4 1 10).1 h⟩

/-- C5: when any record of the batch fails its insert (missing required
field or CHECK violation), the whole transaction rolls back to the
initial state and the call does not report success. -/
theorem C5_batch_rolls_back (db : DB) (ps : List ProductData)
    (h : ∃ pd ∈ ps, insert_ok pd = false) :
    (batch_create_products db ps).2 = db ∧
      (batch_create_products db ps).1 ≠ BatchResult.ok := by
  obtain ⟨e, he⟩ := run_inserts_fails ps db h
  unfold batch_create_products
  rw [he]
  cases e <;> simp

/-- C5 witness: a three-record batch whose middle record lacks the name
key persists nothing into the empty store and does not report success. -/
theorem C5_batch_witness :
    (∃ pd ∈ [pd_ok1, pd_bad, pd_ok2], insert_ok pd = false) ∧
    (batch_create_products empty_db [pd_ok1, pd_bad, pd_ok2]).2 = empty_db ∧
    (batch_create_products empty_db [pd_ok1, pd_bad, pd_ok2]).1 ≠ BatchResult.ok :=
  ⟨⟨pd_bad, by decide, by decide⟩,
   (C5_batch_rolls_back empty_db [pd_ok1, pd_bad, pd_ok2] ⟨pd_bad, by decide, by decide⟩).1,
   (C5_batch_rolls_back empty_db [pd_ok1, pd_bad, pd_ok2] ⟨pd_bad, by decide, by decide⟩).2⟩

/-- C6: for an existing product, a positive count of referencing order
items makes delete_product return False with the state untouched, and a
zero count makes it return True with the product row gone. -/
theorem C6_delete_product (db : DB) (pid : Nat)
    (hex : ∃ p ∈ db.products, p.product_id = pid) :
    (0 < (db.order_items.filter (fun oi => decide (oi.product_id = pid))).length →
        delete_product db pid = (false, db)) ∧
    ((db.order_items.filter (fun oi => decide (oi.product_id = pid))).length = 0 →
        (delete_product db pid).1 = true ∧
        ∀ p ∈ (delete_product db pid).2.products, ¬ p.product_id = pid) := by
  constructor
  · intro hpos
    simp [delete_product, hpos]
  · intro hzero
    constructor
    · simp [delete_product, hzero]
    · intro p hp
      simp [delete_product, hzero] at hp
      exact hp.2

/-- C6 witness: deleting the unreferenced product 1 succeeds. -/
theorem C6_delete_witness :
    (∃ p ∈ db_c6.products, p.product_id = 1) ∧ (delete_product db_c6 1).1 = true :=
  ⟨⟨prod_c6, by decide, rfl⟩,
   ((C6_delete_product db_c6 1 ⟨prod_c6, by decide, rfl⟩).2 (by decide)).1⟩

/-- C7 counterexample: a duplicate category insert escapes as a raised
IntegrityError instead of returning a failure indicator, and a failed
product read returns the very empty list an empty successful read
returns, so the two are indistinguishable. -/
theorem C7_counterexample :
    create_category db_c7 "A" "" = Except.error SqlErr.integrityError ∧
    get_products empty_db none 1 10 = get_products_error_return := by
  exact ⟨rfl, rfl⟩

/-- C7 amended: create_category re-raises the engine's integrity error on
a duplicate name rather than returning an indicator, and get_products
answers every read over an empty store with the same empty list its
error branch returns, so no-rows and failure coincide. -/
theorem C7_error_model (db : DB) (name desc : String)
    (h : db.categories.any (fun c => c.name == name) = true) :
    create_category db name desc = Except.error SqlErr.integrityError ∧
    ∀ (fs : Option Filters) (page per_page : Nat),
      get_products empty_db fs page per_page = get_products_error_return := by
  constructor
  · unfold create_category
    simp [h]
  · intro fs page per_page
    simp [get_products, get_products_error_return, empty_db]

/-- C7 witness: the duplicate name A triggers the escaping error. -/
theorem C7_error_witness :
    create_category db_c7 "A" "" = Except.error SqlErr.integrityError :=
  (C7_error_model db_c7 "A" "" (by decide)).1

/-- C9: truncate_table rejects names outside the whitelist leaving the
state untouched, and for whitelisted names empties exactly that table,
deletes its sequence row so the next assigned id is 1 again, and a
subsequent create_product on a truncated products table gets id 1. -/
theorem C9_truncate_table (db : DB) (name : String) :
    (name ∉ allowed_tables → truncate_table db name = (false, db)) ∧
    (name ∈ allowed_tables →
       (truncate_table db name).1 = true ∧
       table_count (truncate_table db name).2 name = 0 ∧
       seq_lookup (truncate_table db name).2.seq name = none ∧
       next_id (truncate_table db name).2 name = 1) ∧
    (∀ pd, insert_ok pd = true →
       create_product (truncate_table db tblProducts).2 pd =
         Except.ok (1, db_insert_product (truncate_table db tblProducts).2 pd)) := by
  refine ⟨?_, ?_, ?_⟩
  · intro h
    unfold truncate_table
    rw [if_neg h]
  · intro h
    have hseq : (truncate_table db name).2.seq = seq_delete db.seq name := by
      unfold truncate_table
      rw [if_pos h]
    have hlook : seq_lookup (truncate_table db name).2.seq name = none := by
      rw [hseq]
      exact seq_lookup_delete db.seq name
    refine ⟨?_, ?_, hlook, ?_⟩
    · unfold truncate_table
      rw [if_pos h]
    · unfold truncate_table at hlook ⊢
      rw [if_pos h]
      simp only [allowed_tables, List.mem_cons, List.not_mem_nil, or_false] at h
      rcases h with h | h | h | h | h <;>
        subst h <;>
        simp [table_count, db_clear_table, tblProducts, tblCategories, tblCustomers,
          tblOrders, tblOrderItems]
    · unfold next_id
      rw [hlook]
      rfl
  · intro pd hpd
    have hr : required_ok pd = true := by
      unfold insert_ok at hpd
      cases hx : required_ok pd
      · rw [hx] at hpd
        simp at hpd
      · rfl
    have hc : checks_ok pd = true := by
      unfold insert_ok at hpd
      rw [hr] at hpd
      simpa using hpd
    have hnext : next_id (truncate_table db tblProducts).2 tblProducts = 1 := by
      unfold next_id
      rw [show (truncate_table db tblProducts).2.seq = seq_delete db.seq tblProducts from by
        unfold truncate_table
        rw [if_pos (by decide)]]
      rw [seq_lookup_delete]
      rfl
    unfold create_product
    rw [hr, hc, hnext]
    simp

/-- C9 witness: a rejected junk name leaves the concrete state alone, and
after truncating products the next created product receives id 1. -/
theorem C9_truncate_witness :
    truncate_table db_c9 "not_a_table" = (false, db_c9) ∧
    create_product (truncate_table db_c9 tblProducts).2 pd_c9 =
      Except.ok (1, db_insert_product (truncate_table db_c9 tblProducts).2 pd_c9) :=
  ⟨(C9_truncate_table db_c9 "not_a_table").1 (by decide),
   (C9_truncate_table db_c9 tblProducts).2.2 pd_c9 (by decide)⟩

/-- C8: every sales-report row's revenue is the sum of quantity times
unit price over the counted (non-cancelled, in-range) items of its
category, removing cancelled orders' items changes no aggregate of the
report, and rows are ordered by total revenue descending. -/
theorem C8_sales_report_revenue (db : DB) (sd ed : Option Nat) (h : db.wf) :
    (∀ r ∈ get_sales_report db sd ed, ∃ c ∈ db.categories,
        r.category_name = c.name ∧
        r.total_revenue = category_revenue db sd ed c.category_id) ∧
    get_sales_report (drop_cancelled db) sd ed = get_sales_report db sd ed ∧
    (get_sales_report db sd ed).Sorted revenue_desc := by
  obtain ⟨hcat, hp, ho, hi⟩ := h
  refine ⟨?_, sales_report_drop_cancelled db sd ed ho, ?_⟩
  · intro r hr
    unfold get_sales_report at hr
    have hr' := (List.perm_insertionSort revenue_desc _).mem_iff.mp hr
    obtain ⟨c, hcmem, hrc⟩ := List.mem_map.mp hr'
    refine ⟨c, (List.mem_filter.mp hcmem).1, ?_, ?_⟩
    · rw [← hrc]
      rfl
    · rw [← hrc]
      show ((sales_items_for db sd ed c).map subtotal).sum = _
      rw [sales_items_eq_filter db sd ed c hp ho]
      rfl
  · unfold get_sales_report
    exact List.sorted_insertionSort revenue_desc _

/-- C8 witness: the two-category state is well formed and its report is
sorted by revenue. -/
theorem C8_sales_witness :
    db_c8w.wf ∧ (get_sales_report db_c8w none none).Sorted revenue_desc :=
  ⟨by decide, (C8_sales_report_revenue db_c8w none none (by decide)).2.2⟩

/-- C2 counterexample: the Books category has no sold items, and the
sales report is empty — the category is excluded, though the claim says
outer joins keep categories with no sales. -/
theorem C2_counterexample :
    get_sales_report db_c2 none none = [] ∧ db_c2.categories ≠ [] :=
  ⟨rfl, by decide⟩

/-- C2 amended: the popular-products CTE and the customer history use
outer joins — every product appears in the CTE and every order of the
customer appears in the history — but the sales report inner-joins, so
each of its rows requires an existing product and non-cancelled order
behind some item. -/
theorem C2_outer_joins (db : DB) (sd ed : Option Nat) :
    (∀ p ∈ db.products, ∃ r ∈ product_sales db, r.product_id = p.product_id) ∧
    (∀ (cid : Nat), ∀ o ∈ db.orders, o.customer_id = cid →
       ∃ r ∈ get_customer_orders db cid, r.order_id = o.order_id) ∧
    (∀ r ∈ get_sales_report db sd ed, ∃ oi ∈ db.order_items, ∃ p ∈ db.products,
       p.product_id = oi.product_id ∧
       ∃ o ∈ db.orders, o.order_id = oi.order_id ∧ ¬ o.status = OrderStatus.cancelled) := by
  refine ⟨?_, ?_, ?_⟩
  · intro p hp
    refine ⟨pop_row db p, ?_, rfl⟩
    unfold product_sales
    exact (List.perm_insertionSort pop_order _).mem_iff.mpr
      (List.mem_map_of_mem (pop_row db) hp)
  · intro cid o ho hco
    refine ⟨cust_row db o, ?_, rfl⟩
    unfold get_customer_orders
    apply (List.perm_insertionSort date_desc _).mem_iff.mpr
    apply List.mem_map_of_mem (cust_row db)
    exact List.mem_filter.mpr ⟨ho, by simp [hco]⟩
  · intro r hr
    unfold get_sales_report at hr
    have hr' := (List.perm_insertionSort revenue_desc _).mem_iff.mp hr
    obtain ⟨c, hcmem, hrc⟩ := List.mem_map.mp hr'
    have hne := (List.mem_filter.mp hcmem).2
    have hnil : sales_items_for db sd ed c ≠ [] := by
      intro hh
      rw [hh] at hne
      simp at hne
    obtain ⟨x, hx⟩ := List.exists_mem_of_ne_nil _ hnil
    unfold sales_items_for at hx
    obtain ⟨oi, hoi, hjoin⟩ := List.mem_flatMap.mp hx
    unfold sales_item_join at hjoin
    obtain ⟨p, hpf, hmap⟩ := List.mem_flatMap.mp hjoin
    have hpmem := List.mem_filter.mp hpf
    obtain ⟨o, hof, _⟩ := List.mem_map.mp hmap
    have homem := List.mem_filter.mp hof
    have hpid : p.product_id = oi.product_id := by
      have := hpmem.2
      simp at this
      exact this.1
    have hodata := homem.2
    rw [Bool.and_eq_true] at hodata
    have hoid : o.order_id = oi.order_id := by
      have := hodata.1
      simpa using this
    have hocanc : ¬ o.status = OrderStatus.cancelled := by
      have := hodata.2
      unfold sales_order_ok at this
      rw [Bool.and_eq_true] at this
      simpa using this.1
    exact ⟨oi, hoi, p, hpmem.1, hpid, o, homem.1, hoid, hocanc⟩

/-- C2 witness: the unsold product of db_c2 still appears in the
popular-products CTE. -/
theorem C2_outer_witness :
    ∃ r ∈ product_sales db_c2, r.product_id = prod_c2.product_id :=
  (C2_outer_joins db_c2 none none).1 prod_c2 (by decide)

/-- C1: evaluating the code at a state whose only order is cancelled.
The claim says the popular-products aggregates count only items of
non-cancelled orders, so this product (sold only through a cancelled
order) should report null or zero totals; the query instead reports the
cancelled order's quantities, because the status condition sits in the
LEFT JOIN ON clause and no order column is consumed afterwards. -/
theorem C1_cancelled_items_counted :
    get_popular_products db_c1 5 =
      [{ product_id := 1, name := "Widget", price := 5, category_name := none,
         total_sold := some 2, total_revenue := some 10 }] := by
  unfold get_popular_products product_sales
  simp [db_c1, prod_c1, pop_row, pop_group, List.insertionSort, List.orderedInsert, subtotal]
  norm_num

/-- Any text holding an a (case-insensitively) anywhere before a b
matches the pattern the unescaped search value a percent b produces. -/
theorem like_ab_matches (t1 t2 t3 : List Char) (c1 c2 : Char)
    (h1 : lower_char c1 = 'a') (h2 : lower_char c2 = 'b') :
    like_chars ['%', 'a', '%', 'b', '%'] (t1 ++ c1 :: (t2 ++ c2 :: t3)) = true := by
  apply like_chars_percent_skip
  have h1' : (lower_char 'a' == lower_char c1) = true := by
    rw [h1]
    decide
  simp only [like_chars, h1', Bool.true_and]
  apply like_chars_percent_skip
  have h2' : (lower_char 'b' == lower_char c2) = true := by
    rw [h2]
    decide
  simp only [like_chars, h2', Bool.true_and]
  exact like_chars_percent_nil t3

/-- C10: the search value is pasted unescaped between percent wildcards,
so a search containing the wildcard percent matches by pattern, not by
literal substring: every name with an a anywhere before a b matches the
search value a percent b, and get_products returns the product named
axxb for that search although axxb does not contain the literal text. -/
theorem C10_search_unescaped :
    (∀ (t1 t2 t3 : List Char) (c1 c2 : Char),
       lower_char c1 = 'a' → lower_char c2 = 'b' →
       like_match (wrap_pattern str_ab) (String.mk (t1 ++ c1 :: (t2 ++ c2 :: t3))) = true) ∧
    get_products db_c10 (some { search := some str_ab }) 1 10 =
      [{ product := prod_axxb, category_name := none }] ∧
    ¬ (str_ab.toList <:+: prod_axxb.name.toList) := by
  refine ⟨?_, ?_, by decide⟩
  · intro t1 t2 t3 c1 c2 h1 h2
    show like_chars (wrap_pattern str_ab).toList (t1 ++ c1 :: (t2 ++ c2 :: t3)) = true
    rw [show (wrap_pattern str_ab).toList = ['%', 'a', '%', 'b', '%'] from by decide]
    exact like_ab_matches t1 t2 t3 c1 c2 h1 h2
  · have hax : like_match (wrap_pattern str_ab) "axxb" = true := by
      show like_chars (wrap_pattern str_ab).toList "axxb".toList = true
      rw [show (wrap_pattern str_ab).toList = ['%', 'a', '%', 'b', '%'] from by decide,
        show "axxb".toList = [] ++ 'a' :: (['x', 'x'] ++ 'b' :: []) from by decide]
      exact like_ab_matches [] ['x', 'x'] [] 'a' 'b' (by decide) (by decide)
    have hzz : like_match (wrap_pattern str_ab) "zzz" = false := by
      show like_chars (wrap_pattern str_ab).toList "zzz".toList = false
      rw [show (wrap_pattern str_ab).toList = ['%', 'a', '%', 'b', '%'] from by decide,
        show "zzz".toList = ['z', 'z', 'z'] from by decide]
      simp [like_chars, lower_char]
    have hempty : like_match (wrap_pattern str_ab) "" = false := by
      show like_chars (wrap_pattern str_ab).toList "".toList = false
      rw [show (wrap_pattern str_ab).toList = ['%', 'a', '%', 'b', '%'] from by decide,
        show "".toList = ([] : List Char) from by decide]
      simp [like_chars]
    simp [get_products, db_c10, matches_filters, prod_axxb, prod_zzz, hax, hzz, hempty,
      List.insertionSort, List.orderedInsert]

/-- C10 witness: an uppercase A before a b, with surrounding noise,
matches the wildcard pattern. -/
theorem C10_search_witness :
    like_match (wrap_pattern str_ab) (String.mk (['x'] ++ 'A' :: ([] ++ 'b' :: ['y']))) = true :=
  C10_search_unescaped.1 ['x'] [] ['y'] 'A' 'b' (by decide) (by decide)
